import Mathlib

/-
  Verification development for the Cobra Risk Dashboard.

  Shallow embedding of the risk-parameter calculator and configuration
  exporter: the preset table and formatting helpers of src/lib/calc.ts and
  the derivation/status engine, config serializer and state handlers of the
  main page component (src/unnamed/part_001).  JavaScript numbers are
  embedded as rationals; Math.round is Mathlib's round (both send x to
  the floor of x + 1/2, i.e. ties toward positive infinity).
-/

namespace Cobra

/-- The four risk modes of src/lib/calc.ts (`type Mode`). -/
inductive Mode
  | Conservative
  | Standard
  | Aggressive
  | Custom
deriving DecidableEq, Repr

/-- Tri-state classification (`type Status` in the page component). -/
inductive Status
  | Safe
  | Caution
  | Danger
deriving DecidableEq, Repr

/-- The `RiskSettings` interface of src/lib/calc.ts. -/
structure RiskSettings where
  dailyLossLimit : ℚ
  totalLossLimit : ℚ
  perSymbolLossLimit : ℚ
  perSymbolExposureLimit : ℚ
  totalExposureLimit : ℚ
  profitLockStart : ℚ
  profitLockDrawdown : ℚ
  stopTime : String
  autoStopLoss : Bool
  disableNewOrders : Bool
  liquidateAllPositions : Bool
  maxSharesPerPosition : ℤ
  maxOrderSize : ℤ
  maxDailyTrades : ℤ
  maxPositions : ℤ
deriving DecidableEq, Repr

/-- The `PRESET_MAP` table of src/lib/calc.ts, one entry per mode. -/
def PRESET_MAP : Mode → RiskSettings
  | Mode.Conservative =>
    { dailyLossLimit := 0
      totalLossLimit := 0.08
      perSymbolLossLimit := 0.015
      perSymbolExposureLimit := 0.10
      totalExposureLimit := 0.40
      profitLockStart := 0.06
      profitLockDrawdown := 0.30
      stopTime := "15:30"
      autoStopLoss := true
      disableNewOrders := true
      liquidateAllPositions := true
      maxSharesPerPosition := 10000
      maxOrderSize := 5000
      maxDailyTrades := 50
      maxPositions := 5 }
  | Mode.Standard =>
    { dailyLossLimit := 0
      totalLossLimit := 0.12
      perSymbolLossLimit := 0.02
      perSymbolExposureLimit := 0.15
      totalExposureLimit := 0.50
      profitLockStart := 0.09
      profitLockDrawdown := 0.30
      stopTime := "15:30"
      autoStopLoss := true
      disableNewOrders := true
      liquidateAllPositions := true
      maxSharesPerPosition := 20000
      maxOrderSize := 10000
      maxDailyTrades := 100
      maxPositions := 10 }
  | Mode.Aggressive =>
    { dailyLossLimit := 0
      totalLossLimit := 0.15
      perSymbolLossLimit := 0.025
      perSymbolExposureLimit := 0.20
      totalExposureLimit := 0.60
      profitLockStart := 0.12
      profitLockDrawdown := 0.35
      stopTime := "15:30"
      autoStopLoss := true
      disableNewOrders := true
      liquidateAllPositions := true
      maxSharesPerPosition := 50000
      maxOrderSize := 25000
      maxDailyTrades := 200
      maxPositions := 20 }
  | Mode.Custom =>
    { dailyLossLimit := 0
      totalLossLimit := 0
      perSymbolLossLimit := 0
      perSymbolExposureLimit := 0
      totalExposureLimit := 0
      profitLockStart := 0
      profitLockDrawdown := 0
      stopTime := ""
      autoStopLoss := false
      disableNewOrders := false
      liquidateAllPositions := false
      maxSharesPerPosition := 0
      maxOrderSize := 0
      maxDailyTrades := 0
      maxPositions := 0 }

/-- `currentSettings = mode === "Custom" ? customSettings : PRESET_MAP[mode]`. -/
def currentSettings (mode : Mode) (customSettings : RiskSettings) : RiskSettings :=
  if mode = Mode.Custom then customSettings else PRESET_MAP mode

/-- `drawdown = priorEquity > 0 ? (equity / priorEquity - 1) : 0`. -/
def drawdown (equity priorEquity : ℚ) : ℚ :=
  if priorEquity > 0 then equity / priorEquity - 1 else 0

/-- `drawdownStatus = drawdown <= -0.10 ? "Danger" : drawdown <= -0.05 ? "Caution" : "Safe"`. -/
def drawdownStatus (d : ℚ) : Status :=
  if d ≤ -0.10 then Status.Danger else if d ≤ -0.05 then Status.Caution else Status.Safe

/-- `dayLossLimit = -(equity * currentSettings.dailyLossLimit)`. -/
def dayLossLimit (s : RiskSettings) (equity : ℚ) : ℚ :=
  -(equity * s.dailyLossLimit)

/-- `totalLossLimit = -(equity * currentSettings.totalLossLimit)` (the derived dollar value). -/
def totalLossLimitD (s : RiskSettings) (equity : ℚ) : ℚ :=
  -(equity * s.totalLossLimit)

/-- `perSymbolLimit = -(equity * currentSettings.perSymbolLossLimit)`. -/
def perSymbolLimit (s : RiskSettings) (equity : ℚ) : ℚ :=
  -(equity * s.perSymbolLossLimit)

/-- `perTickerExposure = equity * currentSettings.perSymbolExposureLimit`. -/
def perTickerExposure (s : RiskSettings) (equity : ℚ) : ℚ :=
  equity * s.perSymbolExposureLimit

/-- `totalExposure = equity * currentSettings.totalExposureLimit`. -/
def totalExposure (s : RiskSettings) (equity : ℚ) : ℚ :=
  equity * s.totalExposureLimit

/-- `profitLockStart = equity * currentSettings.profitLockStart` (the derived dollar value). -/
def profitLockStartD (s : RiskSettings) (equity : ℚ) : ℚ :=
  equity * s.profitLockStart

/-- `remainingBudget = dayLossLimit - todaysPnL`. -/
def remainingBudget (s : RiskSettings) (equity todaysPnL : ℚ) : ℚ :=
  dayLossLimit s equity - todaysPnL

/-- `lossUsed = Math.abs(todaysPnL)`. -/
def lossUsed (todaysPnL : ℚ) : ℚ := |todaysPnL|

/-- `lossLimit = Math.abs(dayLossLimit)`. -/
def lossLimit (s : RiskSettings) (equity : ℚ) : ℚ := |dayLossLimit s equity|

/-- `remainingStatus = lossUsed > 0.8*lossLimit ? "Danger" : lossUsed > 0.5*lossLimit ? "Caution" : "Safe"`. -/
def remainingStatus (s : RiskSettings) (equity todaysPnL : ℚ) : Status :=
  if lossUsed todaysPnL > 0.8 * lossLimit s equity then Status.Danger
  else if lossUsed todaysPnL > 0.5 * lossLimit s equity then Status.Caution
  else Status.Safe

/-- `totalUnrealizedLoss = 0` (no live position feed in this scope). -/
def totalUnrealizedLoss : ℚ := 0

/-- `totalLossUsed = todaysPnL + totalUnrealizedLoss`. -/
def totalLossUsed (todaysPnL : ℚ) : ℚ :=
  todaysPnL + totalUnrealizedLoss

/-- `totalLossRemaining = totalLossLimit - totalLossUsed`. -/
def totalLossRemaining (s : RiskSettings) (equity todaysPnL : ℚ) : ℚ :=
  totalLossLimitD s equity - totalLossUsed todaysPnL

/-- `haltedPct = equity > 0 ? haltedExposure / equity : 0`. -/
def haltedPct (equity haltedExposure : ℚ) : ℚ :=
  if equity > 0 then haltedExposure / equity else 0

/-- `haltedStatus = haltedPct > 0.40 ? "Danger" : haltedPct > 0.20 ? "Caution" : "Safe"`. -/
def haltedStatus (p : ℚ) : Status :=
  if p > 0.40 then Status.Danger else if p > 0.20 then Status.Caution else Status.Safe

/-- `flattenNow = (lossUsed > 0.9 * lossLimit) || (haltedPct > 0.40)`. -/
def flattenNow (s : RiskSettings) (equity todaysPnL haltedExposure : ℚ) : Bool :=
  decide (lossUsed todaysPnL > 0.9 * lossLimit s equity)
    || decide (haltedPct equity haltedExposure > 0.40)

/-- The Total Loss Used status chip of the page: `Math.abs(totalLossUsed) >
Math.abs(totalLossLimit) * 0.8 ? "Danger" : Math.abs(totalLossUsed) >
Math.abs(totalLossLimit) * 0.5 ? "Caution" : "Safe"`. -/
def totalLossUsedStatus (s : RiskSettings) (equity todaysPnL : ℚ) : Status :=
  if |totalLossUsed todaysPnL| > |totalLossLimitD s equity| * 0.8 then Status.Danger
  else if |totalLossUsed todaysPnL| > |totalLossLimitD s equity| * 0.5 then Status.Caution
  else Status.Safe

/-- Rendering of a mode name, as interpolated into the config header line. -/
def Mode.str : Mode → String
  | Mode.Conservative => "Conservative"
  | Mode.Standard => "Standard"
  | Mode.Aggressive => "Aggressive"
  | Mode.Custom => "Custom"

/-- One line of the exported config document: a `#` comment, a blank
separator, or a `key=value` setting. -/
inductive CfgLine
  | comment (text : String)
  | blank
  | setting (key value : String)
deriving DecidableEq, Repr

/-- Rendering of a config line to its text. -/
def CfgLine.render : CfgLine → String
  | CfgLine.comment t => t
  | CfgLine.blank => ""
  | CfgLine.setting k v => k ++ "=" ++ v

/-- The key=value payload of a line, `none` for comments and blanks. -/
def CfgLine.settingKV : CfgLine → Option (String × String)
  | CfgLine.setting k v => some (k, v)
  | _ => none

/-- The line list built by `exportCfg` in the page component, in order. -/
def exportCfgEntries (mode : Mode) (customSettings : RiskSettings) (equity : ℚ) :
    List CfgLine :=
  let s := currentSettings mode customSettings
  [ CfgLine.comment ("# DAS Risk Control Configuration"),
    CfgLine.comment ("# Generated by COBRA Risk Dashboard"),
    CfgLine.comment ("# Mode: " ++ mode.str),
    CfgLine.blank,
    CfgLine.comment ("# Basic Risk Limits"),
    CfgLine.setting ("DayLossLimit") (toString (round (dayLossLimit s equity))),
    CfgLine.setting ("TotalLossLimit") (toString (round (totalLossLimitD s equity))),
    CfgLine.setting ("PosUnrealLossLimit") (toString (round (perSymbolLimit s equity))),
    CfgLine.setting ("PosMktValueLimit") (toString (round (perTickerExposure s equity))),
    CfgLine.setting ("OpenPosValueLimit") (toString (round (totalExposure s equity))),
    CfgLine.blank,
    CfgLine.comment ("# Profit Protection"),
    CfgLine.setting ("ProfitLockStart") (toString (round (profitLockStartD s equity))),
    CfgLine.setting ("ProfitLockDrawdown%") (toString (round (s.profitLockDrawdown * 100))),
    CfgLine.blank,
    CfgLine.comment ("# Trading Controls"),
    CfgLine.setting ("StopTime") (s.stopTime),
    CfgLine.setting ("AutoStopLoss") (if s.autoStopLoss then "1" else "0"),
    CfgLine.setting ("DisableNewOrders") (if s.disableNewOrders then "1" else "0"),
    CfgLine.setting ("LiquidateAllPositions") (if s.liquidateAllPositions then "1" else "0"),
    CfgLine.blank,
    CfgLine.comment ("# Advanced Controls"),
    CfgLine.setting ("MaxSharesPerPosition") (toString s.maxSharesPerPosition),
    CfgLine.setting ("MaxOrderSize") (toString s.maxOrderSize),
    CfgLine.setting ("MaxDailyTrades") (toString s.maxDailyTrades),
    CfgLine.setting ("MaxPositions") (toString s.maxPositions) ]

/-- The rendered lines of the exported config document. -/
def exportCfgLines (mode : Mode) (customSettings : RiskSettings) (equity : ℚ) :
    List String :=
  (exportCfgEntries mode customSettings equity).map CfgLine.render

/-- The full text of the exported config document (`[...].join("\n")`). -/
def exportCfg (mode : Mode) (customSettings : RiskSettings) (equity : ℚ) : String :=
  String.intercalate ("\n") (exportCfgLines mode customSettings equity)

/-- The key=value schema of the external config interface, written from the
spec's section 6 table and the section 4.2/4.3 value rules: the fifteen fixed
keys in order, dollar limits scaled by equity (loss limits negated) and rounded
to the nearest integer, the profit-lock drawdown as nearest integer percent,
the stop time verbatim, booleans as "1"/"0", integer caps verbatim. -/
def specSchemaSettings (s : RiskSettings) (equity : ℚ) : List (String × String) :=
  [ (("DayLossLimit"), toString (round (-(equity * s.dailyLossLimit)))),
    (("TotalLossLimit"), toString (round (-(equity * s.totalLossLimit)))),
    (("PosUnrealLossLimit"), toString (round (-(equity * s.perSymbolLossLimit)))),
    (("PosMktValueLimit"), toString (round (equity * s.perSymbolExposureLimit))),
    (("OpenPosValueLimit"), toString (round (equity * s.totalExposureLimit))),
    (("ProfitLockStart"), toString (round (equity * s.profitLockStart))),
    (("ProfitLockDrawdown%"), toString (round (s.profitLockDrawdown * 100))),
    (("StopTime"), s.stopTime),
    (("AutoStopLoss"), if s.autoStopLoss then "1" else "0"),
    (("DisableNewOrders"), if s.disableNewOrders then "1" else "0"),
    (("LiquidateAllPositions"), if s.liquidateAllPositions then "1" else "0"),
    (("MaxSharesPerPosition"), toString s.maxSharesPerPosition),
    (("MaxOrderSize"), toString s.maxOrderSize),
    (("MaxDailyTrades"), toString s.maxDailyTrades),
    (("MaxPositions"), toString s.maxPositions) ]

/-- One edit of the stored custom settings, one constructor per `onChange`
handler of the Custom Risk Settings section.  Percentage fields are entered
as a raw percent value and stored divided by 100 (`Number(e.target.value) / 100`);
the stop time, checkbox and integer-cap handlers store the entered value
directly. -/
inductive CustomEdit
  | dailyLossLimit (v : ℚ)
  | totalLossLimit (v : ℚ)
  | perSymbolLossLimit (v : ℚ)
  | perSymbolExposureLimit (v : ℚ)
  | totalExposureLimit (v : ℚ)
  | profitLockStart (v : ℚ)
  | profitLockDrawdown (v : ℚ)
  | stopTime (t : String)
  | maxSharesPerPosition (v : ℤ)
  | maxOrderSize (v : ℤ)
  | maxDailyTrades (v : ℤ)
  | maxPositions (v : ℤ)
  | autoStopLoss (b : Bool)
  | disableNewOrders (b : Bool)
  | liquidateAllPositions (b : Bool)
deriving DecidableEq, Repr

/-- Effect of one custom-settings edit handler (`setCustomSettings({...customSettings, field: ...})`). -/
def applyCustomEdit (s : RiskSettings) : CustomEdit → RiskSettings
  | CustomEdit.dailyLossLimit v => { s with dailyLossLimit := v / 100 }
  | CustomEdit.totalLossLimit v => { s with totalLossLimit := v / 100 }
  | CustomEdit.perSymbolLossLimit v => { s with perSymbolLossLimit := v / 100 }
  | CustomEdit.perSymbolExposureLimit v => { s with perSymbolExposureLimit := v / 100 }
  | CustomEdit.totalExposureLimit v => { s with totalExposureLimit := v / 100 }
  | CustomEdit.profitLockStart v => { s with profitLockStart := v / 100 }
  | CustomEdit.profitLockDrawdown v => { s with profitLockDrawdown := v / 100 }
  | CustomEdit.stopTime t => { s with stopTime := t }
  | CustomEdit.maxSharesPerPosition v => { s with maxSharesPerPosition := v }
  | CustomEdit.maxOrderSize v => { s with maxOrderSize := v }
  | CustomEdit.maxDailyTrades v => { s with maxDailyTrades := v }
  | CustomEdit.maxPositions v => { s with maxPositions := v }
  | CustomEdit.autoStopLoss b => { s with autoStopLoss := b }
  | CustomEdit.disableNewOrders b => { s with disableNewOrders := b }
  | CustomEdit.liquidateAllPositions b => { s with liquidateAllPositions := b }

/-- The page state: the six persisted values. -/
structure AppState where
  mode : Mode
  equity : ℚ
  priorEquity : ℚ
  todaysPnL : ℚ
  haltedExposure : ℚ
  customSettings : RiskSettings
deriving DecidableEq, Repr

/-- The initial state: the `useLocalState` defaults of the page. -/
def initialState : AppState :=
  { mode := Mode.Standard
    equity := 55000
    priorEquity := 55000
    todaysPnL := 0
    haltedExposure := 0
    customSettings := PRESET_MAP Mode.Custom }

/-- A user action on the page: selecting a mode, changing one of the four
numeric inputs, editing one custom setting, or the Reset to Defaults button. -/
inductive Action
  | setMode (m : Mode)
  | setEquity (v : ℚ)
  | setPriorEquity (v : ℚ)
  | setTodaysPnL (v : ℚ)
  | setHaltedExposure (v : ℚ)
  | editCustom (e : CustomEdit)
  | resetDefaults
deriving DecidableEq, Repr

/-- Effect of one action on the page state.  Mode selection and the numeric
inputs each write their own state cell; a custom edit updates `customSettings`
through its handler; Reset to Defaults runs `setCustomSettings(PRESET_MAP.Custom)`. -/
def step (st : AppState) : Action → AppState
  | Action.setMode m => { st with mode := m }
  | Action.setEquity v => { st with equity := v }
  | Action.setPriorEquity v => { st with priorEquity := v }
  | Action.setTodaysPnL v => { st with todaysPnL := v }
  | Action.setHaltedExposure v => { st with haltedExposure := v }
  | Action.editCustom e => { st with customSettings := applyCustomEdit st.customSettings e }
  | Action.resetDefaults => { st with customSettings := PRESET_MAP Mode.Custom }

/-- Running a sequence of actions from a state. -/
def run (st : AppState) (acts : List Action) : AppState :=
  acts.foldl step st

/-- Whether an action is a mode selection or a change of one of the four
numeric session inputs (as opposed to a custom-settings edit or the reset). -/
def Action.isModeOrInput : Action → Bool
  | Action.setMode _ => true
  | Action.setEquity _ => true
  | Action.setPriorEquity _ => true
  | Action.setTodaysPnL _ => true
  | Action.setHaltedExposure _ => true
  | Action.editCustom _ => false
  | Action.resetDefaults => false

/-- All seven fractional limits of a settings struct lie in [0, 1]. -/
def fracLimitsInRange (s : RiskSettings) : Prop :=
  (0 ≤ s.dailyLossLimit ∧ s.dailyLossLimit ≤ 1) ∧
  (0 ≤ s.totalLossLimit ∧ s.totalLossLimit ≤ 1) ∧
  (0 ≤ s.perSymbolLossLimit ∧ s.perSymbolLossLimit ≤ 1) ∧
  (0 ≤ s.perSymbolExposureLimit ∧ s.perSymbolExposureLimit ≤ 1) ∧
  (0 ≤ s.totalExposureLimit ∧ s.totalExposureLimit ≤ 1) ∧
  (0 ≤ s.profitLockStart ∧ s.profitLockStart ≤ 1) ∧
  (0 ≤ s.profitLockDrawdown ∧ s.profitLockDrawdown ≤ 1)

instance (s : RiskSettings) : Decidable (fracLimitsInRange s) := by
  unfold fracLimitsInRange
  infer_instance

/-- The numeric percentage payload of an edit lies in the input element's
declared range [0, 100]; edits without a percentage payload are unconstrained. -/
def CustomEdit.inRange : CustomEdit → Prop
  | CustomEdit.dailyLossLimit v => 0 ≤ v ∧ v ≤ 100
  | CustomEdit.totalLossLimit v => 0 ≤ v ∧ v ≤ 100
  | CustomEdit.perSymbolLossLimit v => 0 ≤ v ∧ v ≤ 100
  | CustomEdit.perSymbolExposureLimit v => 0 ≤ v ∧ v ≤ 100
  | CustomEdit.totalExposureLimit v => 0 ≤ v ∧ v ≤ 100
  | CustomEdit.profitLockStart v => 0 ≤ v ∧ v ≤ 100
  | CustomEdit.profitLockDrawdown v => 0 ≤ v ∧ v ≤ 100
  | _ => True

instance (e : CustomEdit) : Decidable e.inRange := by
  unfold CustomEdit.inRange
  cases e <;> infer_instance

/-! Characterisations of the status classifiers: each tri-state function is
described by one iff per status value. -/

theorem drawdownStatus_danger_iff (d : ℚ) :
    drawdownStatus d = Status.Danger ↔ d ≤ -0.10 := by
  unfold drawdownStatus
  split_ifs with h1 h2 <;> simp [h1]

theorem drawdownStatus_caution_iff (d : ℚ) :
    drawdownStatus d = Status.Caution ↔ (-0.10 < d ∧ d ≤ -0.05) := by
  unfold drawdownStatus
  split_ifs with h1 h2
  · exact iff_of_false (by decide) (fun h => absurd h1 (not_le.mpr h.1))
  · exact iff_of_true rfl ⟨not_le.mp h1, h2⟩
  · exact iff_of_false (by decide) (fun h => absurd h.2 h2)

theorem drawdownStatus_safe_iff (d : ℚ) :
    drawdownStatus d = Status.Safe ↔ -0.05 < d := by
  unfold drawdownStatus
  split_ifs with h1 h2
  · exact iff_of_false (by decide) (not_lt.mpr (by linarith))
  · exact iff_of_false (by decide) (not_lt.mpr h2)
  · exact iff_of_true rfl (not_le.mp h2)

theorem haltedStatus_danger_iff (p : ℚ) :
    haltedStatus p = Status.Danger ↔ 0.40 < p := by
  unfold haltedStatus
  split_ifs with h1 h2 <;> simp [h1]

theorem haltedStatus_caution_iff (p : ℚ) :
    haltedStatus p = Status.Caution ↔ (0.20 < p ∧ p ≤ 0.40) := by
  unfold haltedStatus
  split_ifs with h1 h2
  · exact iff_of_false (by decide) (fun h => absurd h1 (not_lt.mpr h.2))
  · exact iff_of_true rfl ⟨h2, not_lt.mp h1⟩
  · exact iff_of_false (by decide) (fun h => absurd h.1 h2)

theorem haltedStatus_safe_iff (p : ℚ) :
    haltedStatus p = Status.Safe ↔ p ≤ 0.20 := by
  unfold haltedStatus
  split_ifs with h1 h2
  · exact iff_of_false (by decide) (not_le.mpr (by linarith))
  · exact iff_of_false (by decide) (not_le.mpr h2)
  · exact iff_of_true rfl (not_lt.mp h2)

theorem remainingStatus_danger_iff (s : RiskSettings) (equity todaysPnL : ℚ) :
    remainingStatus s equity todaysPnL = Status.Danger ↔
      0.8 * lossLimit s equity < lossUsed todaysPnL := by
  unfold remainingStatus
  split_ifs with h1 h2 <;> simp [h1]

theorem remainingStatus_caution_iff (s : RiskSettings) (equity todaysPnL : ℚ) :
    remainingStatus s equity todaysPnL = Status.Caution ↔
      (0.5 * lossLimit s equity < lossUsed todaysPnL ∧
        lossUsed todaysPnL ≤ 0.8 * lossLimit s equity) := by
  unfold remainingStatus
  split_ifs with h1 h2
  · exact iff_of_false (by decide) (fun h => absurd h1 (not_lt.mpr h.2))
  · exact iff_of_true rfl ⟨h2, not_lt.mp h1⟩
  · exact iff_of_false (by decide) (fun h => absurd h.1 h2)

theorem remainingStatus_safe_iff (s : RiskSettings) (equity todaysPnL : ℚ) :
    remainingStatus s equity todaysPnL = Status.Safe ↔
      lossUsed todaysPnL ≤ 0.5 * lossLimit s equity := by
  have hL : 0 ≤ lossLimit s equity := abs_nonneg (dayLossLimit s equity)
  unfold remainingStatus
  split_ifs with h1 h2
  · exact iff_of_false (by decide) (not_le.mpr (by linarith))
  · exact iff_of_false (by decide) (not_le.mpr h2)
  · exact iff_of_true rfl (not_lt.mp h2)

theorem totalLossUsedStatus_danger_iff (s : RiskSettings) (equity todaysPnL : ℚ) :
    totalLossUsedStatus s equity todaysPnL = Status.Danger ↔
      |totalLossLimitD s equity| * 0.8 < |totalLossUsed todaysPnL| := by
  unfold totalLossUsedStatus
  split_ifs with h1 h2 <;> simp [h1]

theorem totalLossUsedStatus_caution_iff (s : RiskSettings) (equity todaysPnL : ℚ) :
    totalLossUsedStatus s equity todaysPnL = Status.Caution ↔
      (|totalLossLimitD s equity| * 0.5 < |totalLossUsed todaysPnL| ∧
        |totalLossUsed todaysPnL| ≤ |totalLossLimitD s equity| * 0.8) := by
  unfold totalLossUsedStatus
  split_ifs with h1 h2
  · exact iff_of_false (by decide) (fun h => absurd h1 (not_lt.mpr h.2))
  · exact iff_of_true rfl ⟨h2, not_lt.mp h1⟩
  · exact iff_of_false (by decide) (fun h => absurd h.1 h2)

theorem totalLossUsedStatus_safe_iff (s : RiskSettings) (equity todaysPnL : ℚ) :
    totalLossUsedStatus s equity todaysPnL = Status.Safe ↔
      |totalLossUsed todaysPnL| ≤ |totalLossLimitD s equity| * 0.5 := by
  have hL : (0 : ℚ) ≤ |totalLossLimitD s equity| := abs_nonneg _
  unfold totalLossUsedStatus
  split_ifs with h1 h2
  · exact iff_of_false (by decide) (not_le.mpr (by linarith))
  · exact iff_of_false (by decide) (not_le.mpr h2)
  · exact iff_of_true rfl (not_lt.mp h2)

/-! Guarded divisions. -/

theorem haltedPct_of_pos (equity haltedExposure : ℚ) (h : 0 < equity) :
    haltedPct equity haltedExposure = haltedExposure / equity := by
  unfold haltedPct
  exact if_pos h

theorem haltedPct_of_nonpos (equity haltedExposure : ℚ) (h : equity ≤ 0) :
    haltedPct equity haltedExposure = 0 := by
  unfold haltedPct
  exact if_neg (not_lt.mpr h)

theorem drawdown_of_pos (equity priorEquity : ℚ) (h : 0 < priorEquity) :
    drawdown equity priorEquity = equity / priorEquity - 1 := by
  unfold drawdown
  exact if_pos h

theorem drawdown_of_nonpos (equity priorEquity : ℚ) (h : ¬ 0 < priorEquity) :
    drawdown equity priorEquity = 0 := by
  unfold drawdown
  exact if_neg h

/-! The flatten signal as a proposition. -/

theorem flattenNow_true_iff (s : RiskSettings) (equity todaysPnL haltedExposure : ℚ) :
    flattenNow s equity todaysPnL haltedExposure = true ↔
      (0.9 * lossLimit s equity < lossUsed todaysPnL ∨
        0.40 < haltedPct equity haltedExposure) := by
  unfold flattenNow
  simp only [Bool.or_eq_true, decide_eq_true_eq, gt_iff_lt]

theorem flattenNow_false_iff (s : RiskSettings) (equity todaysPnL haltedExposure : ℚ) :
    flattenNow s equity todaysPnL haltedExposure = false ↔
      (lossUsed todaysPnL ≤ 0.9 * lossLimit s equity ∧
        haltedPct equity haltedExposure ≤ 0.40) := by
  rw [← Bool.not_eq_true, flattenNow_true_iff, not_or, not_lt, not_lt]

/-! Frame lemmas for the stored custom settings. -/

theorem step_customSettings_frame (st : AppState) (a : Action)
    (h : a.isModeOrInput = true) :
    (step st a).customSettings = st.customSettings := by
  cases a <;> simp_all [step, Action.isModeOrInput]

theorem run_customSettings_frame (acts : List Action) (st : AppState)
    (h : ∀ a ∈ acts, a.isModeOrInput = true) :
    (run st acts).customSettings = st.customSettings := by
  induction acts generalizing st with
  | nil => rfl
  | cons a tl ih =>
    show (run (step st a) tl).customSettings = st.customSettings
    rw [ih (step st a) (fun x hx => h x (List.mem_cons_of_mem a hx)),
      step_customSettings_frame st a (h a (List.mem_cons_self a tl))]

/-! The range invariant on fractional limits. -/

theorem presets_fracLimitsInRange (m : Mode) : fracLimitsInRange (PRESET_MAP m) := by
  cases m <;> norm_num [PRESET_MAP, fracLimitsInRange]

theorem applyCustomEdit_fracLimitsInRange (s : RiskSettings) (e : CustomEdit)
    (he : e.inRange) (hs : fracLimitsInRange s) :
    fracLimitsInRange (applyCustomEdit s e) := by
  cases e with
  | dailyLossLimit v =>
    exact ⟨⟨div_nonneg he.1 (by norm_num), (div_le_one (by norm_num)).mpr he.2⟩, hs.2⟩
  | totalLossLimit v =>
    exact ⟨hs.1,
      ⟨div_nonneg he.1 (by norm_num), (div_le_one (by norm_num)).mpr he.2⟩, hs.2.2⟩
  | perSymbolLossLimit v =>
    exact ⟨hs.1, hs.2.1,
      ⟨div_nonneg he.1 (by norm_num), (div_le_one (by norm_num)).mpr he.2⟩, hs.2.2.2⟩
  | perSymbolExposureLimit v =>
    exact ⟨hs.1, hs.2.1, hs.2.2.1,
      ⟨div_nonneg he.1 (by norm_num), (div_le_one (by norm_num)).mpr he.2⟩, hs.2.2.2.2⟩
  | totalExposureLimit v =>
    exact ⟨hs.1, hs.2.1, hs.2.2.1, hs.2.2.2.1,
      ⟨div_nonneg he.1 (by norm_num), (div_le_one (by norm_num)).mpr he.2⟩, hs.2.2.2.2.2⟩
  | profitLockStart v =>
    exact ⟨hs.1, hs.2.1, hs.2.2.1, hs.2.2.2.1, hs.2.2.2.2.1,
      ⟨div_nonneg he.1 (by norm_num), (div_le_one (by norm_num)).mpr he.2⟩, hs.2.2.2.2.2.2⟩
  | profitLockDrawdown v =>
    exact ⟨hs.1, hs.2.1, hs.2.2.1, hs.2.2.2.1, hs.2.2.2.2.1, hs.2.2.2.2.2.1,
      div_nonneg he.1 (by norm_num), (div_le_one (by norm_num)).mpr he.2⟩
  | stopTime t => exact hs
  | maxSharesPerPosition v => exact hs
  | maxOrderSize v => exact hs
  | maxDailyTrades v => exact hs
  | maxPositions v => exact hs
  | autoStopLoss b => exact hs
  | disableNewOrders b => exact hs
  | liquidateAllPositions b => exact hs

theorem foldl_applyCustomEdit_fracLimitsInRange (edits : List CustomEdit)
    (s : RiskSettings) (he : ∀ e ∈ edits, e.inRange) (hs : fracLimitsInRange s) :
    fracLimitsInRange (edits.foldl applyCustomEdit s) := by
  induction edits generalizing s with
  | nil => exact hs
  | cons e tl ih =>
    exact ih (applyCustomEdit s e) (fun x hx => he x (List.mem_cons_of_mem e hx))
      (applyCustomEdit_fracLimitsInRange s e (he e (List.mem_cons_self e tl)) hs)

/-- The rendered export for the Standard mode at equity 100000, fully
evaluated: the Standard fractional limits scaled by 100000, loss limits
negated, all rounded. -/
theorem exportCfgLines_standard_100000 :
    exportCfgLines Mode.Standard (PRESET_MAP Mode.Custom) 100000 =
      [ ("# DAS Risk Control Configuration"),
        ("# Generated by COBRA Risk Dashboard"),
        ("# Mode: Standard"),
        (""),
        ("# Basic Risk Limits"),
        ("DayLossLimit=0"),
        ("TotalLossLimit=-12000"),
        ("PosUnrealLossLimit=-2000"),
        ("PosMktValueLimit=15000"),
        ("OpenPosValueLimit=50000"),
        (""),
        ("# Profit Protection"),
        ("ProfitLockStart=9000"),
        ("ProfitLockDrawdown%=30"),
        (""),
        ("# Trading Controls"),
        ("StopTime=15:30"),
        ("AutoStopLoss=1"),
        ("DisableNewOrders=1"),
        ("LiquidateAllPositions=1"),
        (""),
        ("# Advanced Controls"),
        ("MaxSharesPerPosition=20000"),
        ("MaxOrderSize=10000"),
        ("MaxDailyTrades=100"),
        ("MaxPositions=10") ] := by
  have hcs : currentSettings Mode.Standard (PRESET_MAP Mode.Custom) =
      PRESET_MAP Mode.Standard := rfl
  have h1 : round (dayLossLimit (PRESET_MAP Mode.Standard) 100000) = 0 := by
    rw [dayLossLimit, round_eq]
    norm_num [PRESET_MAP]
  have h2 : round (totalLossLimitD (PRESET_MAP Mode.Standard) 100000) = -12000 := by
    rw [totalLossLimitD, round_eq]
    norm_num [PRESET_MAP]
  have h3 : round (perSymbolLimit (PRESET_MAP Mode.Standard) 100000) = -2000 := by
    rw [perSymbolLimit, round_eq]
    norm_num [PRESET_MAP]
  have h4 : round (perTickerExposure (PRESET_MAP Mode.Standard) 100000) = 15000 := by
    rw [perTickerExposure, round_eq]
    norm_num [PRESET_MAP]
  have h5 : round (totalExposure (PRESET_MAP Mode.Standard) 100000) = 50000 := by
    rw [totalExposure, round_eq]
    norm_num [PRESET_MAP]
  have h6 : round (profitLockStartD (PRESET_MAP Mode.Standard) 100000) = 9000 := by
    rw [profitLockStartD, round_eq]
    norm_num [PRESET_MAP]
  have h7 : round ((PRESET_MAP Mode.Standard).profitLockDrawdown * 100) = 30 := by
    rw [round_eq]
    norm_num [PRESET_MAP]
  simp only [exportCfgLines, exportCfgEntries, hcs, h1, h2, h3, h4, h5, h6, h7]
  rfl

/-- Claim C1, counterexample: at equity 100000 in Standard mode the exported
document does not contain the line DayLossLimit=-5000; the Standard preset's
dailyLossLimit fraction is 0, so the day-loss line is DayLossLimit=0. -/
theorem C1_counterexample :
    ("DayLossLimit=-5000") ∉ exportCfgLines Mode.Standard (PRESET_MAP Mode.Custom) 100000 ∧
    (PRESET_MAP Mode.Standard).dailyLossLimit = 0 := by
  rw [exportCfgLines_standard_100000]
  exact ⟨by decide, rfl⟩

/-- Claim C1 (amended): for equity 100000 in Standard mode the exported
document contains the lines DayLossLimit=0 (the Standard preset's
dailyLossLimit fraction is 0, so the scaled, negated, rounded value is 0),
TotalLossLimit=-12000, StopTime=15:30 and AutoStopLoss=1, each value being
the corresponding fractional limit scaled by equity, negated for loss
limits, rounded to the nearest integer. -/
theorem C1_thm :
    ("DayLossLimit=0") ∈ exportCfgLines Mode.Standard (PRESET_MAP Mode.Custom) 100000 ∧
    ("TotalLossLimit=-12000") ∈ exportCfgLines Mode.Standard (PRESET_MAP Mode.Custom) 100000 ∧
    ("StopTime=15:30") ∈ exportCfgLines Mode.Standard (PRESET_MAP Mode.Custom) 100000 ∧
    ("AutoStopLoss=1") ∈ exportCfgLines Mode.Standard (PRESET_MAP Mode.Custom) 100000 ∧
    round (dayLossLimit (PRESET_MAP Mode.Standard) 100000) = 0 ∧
    round (totalLossLimitD (PRESET_MAP Mode.Standard) 100000) = -12000 := by
  refine ⟨?_, ?_, ?_, ?_, ?_, ?_⟩
  · rw [exportCfgLines_standard_100000]; decide
  · rw [exportCfgLines_standard_100000]; decide
  · rw [exportCfgLines_standard_100000]; decide
  · rw [exportCfgLines_standard_100000]; decide
  · rw [dayLossLimit, round_eq]; norm_num [PRESET_MAP]
  · rw [totalLossLimitD, round_eq]; norm_num [PRESET_MAP]

/-- Claim C2, counterexample: in the scenario equity=55000, priorEquity=55000,
todaysPnL=0, mode=Standard, the remaining budget is 0, not -2750 (the
Standard preset's dailyLossLimit fraction is 0, so the day-loss limit is 0). -/
theorem C2_counterexample :
    remainingBudget (PRESET_MAP Mode.Standard) 55000 0 = 0 ∧ ((0 : ℚ) ≠ -2750) := by
  constructor
  · norm_num [remainingBudget, dayLossLimit, PRESET_MAP]
  · norm_num

/-- Claim C2 (amended): for equity=55000, priorEquity=55000, todaysPnL=0,
haltedExposure=0, mode=Standard the derivation engine yields drawdown=0 with
status Safe, remainingBudget=0 with status Safe, haltedPct=0 with status
Safe, and flattenNow=false. -/
theorem C2_thm :
    drawdown 55000 55000 = 0 ∧
    drawdownStatus (drawdown 55000 55000) = Status.Safe ∧
    remainingBudget (PRESET_MAP Mode.Standard) 55000 0 = 0 ∧
    remainingStatus (PRESET_MAP Mode.Standard) 55000 0 = Status.Safe ∧
    haltedPct 55000 0 = 0 ∧
    haltedStatus (haltedPct 55000 0) = Status.Safe ∧
    flattenNow (PRESET_MAP Mode.Standard) 55000 0 0 = false := by
  have hd : drawdown 55000 55000 = 0 := by
    rw [drawdown_of_pos 55000 55000 (by norm_num)]
    norm_num
  have hll : lossLimit (PRESET_MAP Mode.Standard) 55000 = 0 := by
    norm_num [lossLimit, dayLossLimit, PRESET_MAP]
  have hp : haltedPct 55000 0 = 0 := by
    rw [haltedPct_of_pos 55000 0 (by norm_num)]
    norm_num
  refine ⟨hd, ?_, ?_, ?_, hp, ?_, ?_⟩
  · rw [(drawdownStatus_safe_iff _), hd]
    norm_num
  · norm_num [remainingBudget, dayLossLimit, PRESET_MAP]
  · rw [(remainingStatus_safe_iff _ _ _), hll]
    norm_num [lossUsed]
  · rw [(haltedStatus_safe_iff _), hp]
    norm_num
  · rw [(flattenNow_false_iff _ _ _ _), hll, hp]
    norm_num [lossUsed]

/-- Claim C3: the drawdown is equity/priorEquity - 1 when priorEquity is
positive and 0 otherwise, and its status classification is boundary-exact:
Danger exactly when the drawdown is at most -0.10, Caution exactly when it is
above -0.10 and at most -0.05, Safe exactly when it is above -0.05; in
particular -0.05 classifies as Caution and -0.10 as Danger. -/
theorem C3_thm (equity priorEquity d : ℚ) :
    (0 < priorEquity → drawdown equity priorEquity = equity / priorEquity - 1) ∧
    (¬ 0 < priorEquity → drawdown equity priorEquity = 0) ∧
    (drawdownStatus d = Status.Danger ↔ d ≤ -0.10) ∧
    (drawdownStatus d = Status.Caution ↔ (-0.10 < d ∧ d ≤ -0.05)) ∧
    (drawdownStatus d = Status.Safe ↔ -0.05 < d) ∧
    drawdownStatus (-0.05) = Status.Caution ∧
    drawdownStatus (-0.10) = Status.Danger := by
  refine ⟨drawdown_of_pos equity priorEquity, drawdown_of_nonpos equity priorEquity,
    drawdownStatus_danger_iff d, drawdownStatus_caution_iff d,
    drawdownStatus_safe_iff d, ?_, ?_⟩
  · exact (drawdownStatus_caution_iff _).mpr ⟨by norm_num, le_refl _⟩
  · exact (drawdownStatus_danger_iff _).mpr (le_refl _)

/-- Claim C3, witness: the theorem instantiated at concrete inputs, with its
hypotheses discharged there. -/
theorem C3_witness :
    drawdown 50000 55000 = 50000 / 55000 - 1 ∧
    drawdown 1 0 = 0 ∧
    drawdownStatus (-0.05) = Status.Caution ∧
    drawdownStatus (-0.10) = Status.Danger :=
  ⟨(C3_thm 50000 55000 0).1 (by norm_num),
   (C3_thm 1 0 0).2.1 (by norm_num),
   (C3_thm 0 0 0).2.2.2.2.2.1,
   (C3_thm 0 0 0).2.2.2.2.2.2⟩

/-- Claim C4: flattenNow holds exactly when the absolute P&L exceeds 90% of
the absolute day-loss limit or the halted fraction exceeds 0.40; the exposure
comparison is strict, so at exactly 40% (with the P&L within budget)
flattenNow is false, and strictly above 40% it is true. -/
theorem C4_thm (s : RiskSettings) (equity todaysPnL haltedExposure : ℚ) :
    (flattenNow s equity todaysPnL haltedExposure = true ↔
      (0.9 * |dayLossLimit s equity| < |todaysPnL| ∨
        0.40 < haltedPct equity haltedExposure)) ∧
    (0 < equity → haltedExposure / equity = 0.40 →
      |todaysPnL| ≤ 0.9 * |dayLossLimit s equity| →
      flattenNow s equity todaysPnL haltedExposure = false) ∧
    (0 < equity → 0.40 < haltedExposure / equity →
      flattenNow s equity todaysPnL haltedExposure = true) := by
  refine ⟨flattenNow_true_iff s equity todaysPnL haltedExposure, ?_, ?_⟩
  · intro hq heq hle
    rw [flattenNow_false_iff]
    exact ⟨hle, le_of_eq (by rw [haltedPct_of_pos equity haltedExposure hq, heq])⟩
  · intro hq hgt
    rw [flattenNow_true_iff]
    right
    rwa [haltedPct_of_pos equity haltedExposure hq]

/-- Claim C4, witness: at equity 100 the flatten signal is false when the
halted exposure is exactly 40 and true when it is 41. -/
theorem C4_witness :
    flattenNow (PRESET_MAP Mode.Standard) 100 0 40 = false ∧
    flattenNow (PRESET_MAP Mode.Standard) 100 0 41 = true :=
  ⟨(C4_thm (PRESET_MAP Mode.Standard) 100 0 40).2.1 (by norm_num) (by norm_num)
      (by norm_num [dayLossLimit, PRESET_MAP]),
   (C4_thm (PRESET_MAP Mode.Standard) 100 0 41).2.2 (by norm_num) (by norm_num)⟩

/-- Claim C5: totalLossUsed is todaysPnL plus the unrealized loss, which is
fixed at zero, and the displayed status chip compares the absolute
totalLossUsed against 80% and 50% of the absolute total loss limit: Danger
exactly when above 80%, Caution exactly when above 50% but not above 80%,
Safe exactly when at most 50%. -/
theorem C5_thm (s : RiskSettings) (equity todaysPnL : ℚ) :
    totalLossUsed todaysPnL = todaysPnL + totalUnrealizedLoss ∧
    totalUnrealizedLoss = 0 ∧
    totalLossUsed todaysPnL = todaysPnL ∧
    (totalLossUsedStatus s equity todaysPnL = Status.Danger ↔
      |totalLossLimitD s equity| * 0.8 < |totalLossUsed todaysPnL|) ∧
    (totalLossUsedStatus s equity todaysPnL = Status.Caution ↔
      (|totalLossLimitD s equity| * 0.5 < |totalLossUsed todaysPnL| ∧
        |totalLossUsed todaysPnL| ≤ |totalLossLimitD s equity| * 0.8)) ∧
    (totalLossUsedStatus s equity todaysPnL = Status.Safe ↔
      |totalLossUsed todaysPnL| ≤ |totalLossLimitD s equity| * 0.5) := by
  refine ⟨rfl, rfl, ?_, totalLossUsedStatus_danger_iff s equity todaysPnL,
    totalLossUsedStatus_caution_iff s equity todaysPnL,
    totalLossUsedStatus_safe_iff s equity todaysPnL⟩
  rw [totalLossUsed, totalUnrealizedLoss, add_zero]

/-- Claim C5, witness: the theorem instantiated at the Standard preset with
equity 100000 and todaysPnL -8000 classifies as Caution. -/
theorem C5_witness :
    totalLossUsed (-8000) = -8000 ∧
    totalLossUsedStatus (PRESET_MAP Mode.Standard) 100000 (-8000) = Status.Caution :=
  ⟨(C5_thm (PRESET_MAP Mode.Standard) 100000 (-8000)).2.2.1,
   ((C5_thm (PRESET_MAP Mode.Standard) 100000 (-8000)).2.2.2.2.1).mpr
      (by norm_num [totalLossUsed, totalUnrealizedLoss, totalLossLimitD, PRESET_MAP])⟩

/-- Claim C6, counterexample: the exported document is not exactly the
fifteen-line key=value schema: at equity 100000 in Standard mode it has 26
lines, its first line is a comment rather than a setting, and two states
with the same active settings but different selected modes render different
documents (the mode comment line differs). -/
theorem C6_counterexample :
    (exportCfgLines Mode.Standard (PRESET_MAP Mode.Custom) 100000).length = 26 ∧
    (specSchemaSettings (currentSettings Mode.Standard (PRESET_MAP Mode.Custom)) 100000).length = 15 ∧
    (exportCfgEntries Mode.Standard (PRESET_MAP Mode.Custom) 100000).head? =
      some (CfgLine.comment ("# DAS Risk Control Configuration")) ∧
    CfgLine.settingKV (CfgLine.comment ("# DAS Risk Control Configuration")) = none ∧
    currentSettings Mode.Standard (PRESET_MAP Mode.Standard) =
      currentSettings Mode.Custom (PRESET_MAP Mode.Standard) ∧
    (exportCfgLines Mode.Standard (PRESET_MAP Mode.Standard) 100000)[2]? ≠
      (exportCfgLines Mode.Custom (PRESET_MAP Mode.Standard) 100000)[2]? := by
  refine ⟨rfl, rfl, rfl, rfl, rfl, ?_⟩
  decide

/-- Claim C6 (amended): the serializer is a total deterministic function of
the selected mode, the active settings and the equity; besides fixed comment
headers (one of which names the mode) and blank separator lines, its setting
lines are exactly the fifteen fixed keys of the external-interface schema in
the fixed order DayLossLimit through MaxPositions, with dollar values rounded
to the nearest integer, ProfitLockDrawdown% rounded to the nearest integer
percent, and the three boolean flags rendered as 1 or 0. -/
theorem C6_thm (mode : Mode) (custom : RiskSettings) (equity : ℚ) :
    (exportCfgEntries mode custom equity).filterMap CfgLine.settingKV =
      specSchemaSettings (currentSettings mode custom) equity ∧
    ((exportCfgEntries mode custom equity).filterMap CfgLine.settingKV).map Prod.fst =
      [ ("DayLossLimit"), ("TotalLossLimit"), ("PosUnrealLossLimit"),
        ("PosMktValueLimit"), ("OpenPosValueLimit"), ("ProfitLockStart"),
        ("ProfitLockDrawdown%"), ("StopTime"), ("AutoStopLoss"),
        ("DisableNewOrders"), ("LiquidateAllPositions"), ("MaxSharesPerPosition"),
        ("MaxOrderSize"), ("MaxDailyTrades"), ("MaxPositions") ] :=
  ⟨rfl, rfl⟩

/-- Claim C6, witness: the theorem instantiated at the Standard mode with the
default custom settings and equity 100000. -/
theorem C6_witness :
    (exportCfgEntries Mode.Standard (PRESET_MAP Mode.Custom) 100000).filterMap
        CfgLine.settingKV =
      specSchemaSettings (currentSettings Mode.Standard (PRESET_MAP Mode.Custom)) 100000 :=
  (C6_thm Mode.Standard (PRESET_MAP Mode.Custom) 100000).1

/-- Claim C7: the halted-percentage computation is total: it is the quotient
when equity is positive and 0 when equity is nonpositive, and its status is
Danger exactly above 0.40, Caution exactly above 0.20 and at most 0.40, Safe
exactly at or below 0.20. -/
theorem C7_thm (equity haltedExposure p : ℚ) :
    (0 < equity → haltedPct equity haltedExposure = haltedExposure / equity) ∧
    (equity ≤ 0 → haltedPct equity haltedExposure = 0) ∧
    (haltedStatus p = Status.Danger ↔ 0.40 < p) ∧
    (haltedStatus p = Status.Caution ↔ (0.20 < p ∧ p ≤ 0.40)) ∧
    (haltedStatus p = Status.Safe ↔ p ≤ 0.20) :=
  ⟨haltedPct_of_pos equity haltedExposure, haltedPct_of_nonpos equity haltedExposure,
   haltedStatus_danger_iff p, haltedStatus_caution_iff p, haltedStatus_safe_iff p⟩

/-- Claim C7, witness: the theorem instantiated at positive and nonpositive
equity. -/
theorem C7_witness :
    haltedPct 100 50 = 50 / 100 ∧
    haltedPct 0 50 = 0 ∧
    haltedPct (-3) 50 = 0 :=
  ⟨(C7_thm 100 50 0).1 (by norm_num),
   (C7_thm 0 50 0).2.1 (by norm_num),
   (C7_thm (-3) 50 0).2.1 (by norm_num)⟩

/-- Claim C8, counterexample: the edit handlers divide the raw entered
percentage by 100 without clamping, so entering 200 in the daily-loss-limit
field of the default custom struct yields a fractional limit of 2, outside
[0, 1]. -/
theorem C8_counterexample :
    (applyCustomEdit (PRESET_MAP Mode.Custom) (CustomEdit.dailyLossLimit 200)).dailyLossLimit = 2 ∧
    ¬ fracLimitsInRange (applyCustomEdit (PRESET_MAP Mode.Custom) (CustomEdit.dailyLossLimit 200)) := by
  constructor
  · norm_num [applyCustomEdit, PRESET_MAP]
  · intro h
    have h2 := h.1.2
    norm_num [applyCustomEdit, PRESET_MAP] at h2

/-- Claim C8 (amended): each of the four preset structs has all seven
fractional limits in [0, 1], and a custom struct reached through any sequence
of edit operations keeps them in [0, 1] provided every numeric percentage
entered lies in the input's declared range [0, 100]; the handlers divide the
raw value by 100 without clamping, so out-of-range entries escape the
interval. -/
theorem C8_thm :
    (∀ m : Mode, fracLimitsInRange (PRESET_MAP m)) ∧
    (∀ (s : RiskSettings) (edits : List CustomEdit),
      (∀ e ∈ edits, e.inRange) → fracLimitsInRange s →
      fracLimitsInRange (edits.foldl applyCustomEdit s)) :=
  ⟨presets_fracLimitsInRange, fun s edits he hs =>
    foldl_applyCustomEdit_fracLimitsInRange edits s he hs⟩

/-- Claim C8, witness: the theorem instantiated on an in-range edit sequence
applied to the default custom struct. -/
theorem C8_witness :
    fracLimitsInRange
      (([CustomEdit.dailyLossLimit 50, CustomEdit.profitLockDrawdown 100]).foldl
        applyCustomEdit (PRESET_MAP Mode.Custom)) :=
  C8_thm.2 (PRESET_MAP Mode.Custom) [CustomEdit.dailyLossLimit 50, CustomEdit.profitLockDrawdown 100]
    (by
      intro e he
      simp only [List.mem_cons, List.not_mem_nil, or_false] at he
      rcases he with rfl | rfl
      · exact ⟨by norm_num, by norm_num⟩
      · exact ⟨by norm_num, by norm_num⟩)
    (C8_thm.1 Mode.Custom)

/-- Claim C9: a sequence of mode selections and numeric-input changes never
modifies the stored custom settings, and the Reset to Defaults action sets
them to the all-default Custom struct. -/
theorem C9_thm (st : AppState) (acts : List Action) :
    ((∀ a ∈ acts, a.isModeOrInput = true) →
      (run st acts).customSettings = st.customSettings) ∧
    (step st Action.resetDefaults).customSettings = PRESET_MAP Mode.Custom :=
  ⟨run_customSettings_frame acts st, rfl⟩

/-- Claim C9, witness: the theorem instantiated on a concrete sequence of
mode selections and input changes from the initial state. -/
theorem C9_witness :
    (run initialState
      [Action.setMode Mode.Aggressive, Action.setEquity 80000,
        Action.setPriorEquity 75000, Action.setTodaysPnL (-500),
        Action.setHaltedExposure 1000, Action.setMode Mode.Custom]).customSettings =
      initialState.customSettings ∧
    (step initialState Action.resetDefaults).customSettings = PRESET_MAP Mode.Custom :=
  ⟨(C9_thm initialState _).1
      (by
        intro a ha
        simp only [List.mem_cons, List.not_mem_nil, or_false] at ha
        rcases ha with rfl | rfl | rfl | rfl | rfl | rfl <;> rfl),
   (C9_thm initialState []).2⟩

/-- Claim C10: whenever the flatten signal fires, at least one of its two
driving metrics is already classified Danger: the remaining-loss-budget
status or the halted-exposure status. -/
theorem C10_thm (s : RiskSettings) (equity todaysPnL haltedExposure : ℚ)
    (h : flattenNow s equity todaysPnL haltedExposure = true) :
    remainingStatus s equity todaysPnL = Status.Danger ∨
    haltedStatus (haltedPct equity haltedExposure) = Status.Danger := by
  rcases (flattenNow_true_iff s equity todaysPnL haltedExposure).mp h with h1 | h2
  · left
    rw [remainingStatus_danger_iff]
    have hL : (0 : ℚ) ≤ lossLimit s equity := abs_nonneg (dayLossLimit s equity)
    linarith
  · right
    rw [haltedStatus_danger_iff]
    exact h2

/-- Claim C10, witness: at equity 100 with halted exposure 50 the flatten
signal fires and the conclusion holds. -/
theorem C10_witness :
    remainingStatus (PRESET_MAP Mode.Standard) 100 0 = Status.Danger ∨
    haltedStatus (haltedPct 100 50) = Status.Danger :=
  C10_thm (PRESET_MAP Mode.Standard) 100 0 50
    (by
      rw [flattenNow_true_iff]
      right
      rw [haltedPct_of_pos 100 50 (by norm_num)]
      norm_num)

end Cobra
